import Mathlib

/-!
# Verification of the terrainbento boundary-condition handler and run-loop contract

Shallow embedding of the `SingleNodeBaselevelHandler` boundary-condition
handler, and of the `run_one_step` orchestration of the derived models
`BasicDdRt` and `BasicSaVs`, from the terrainbento repository.

Real values are embedded as rationals (`ℚ`); grid fields are functions from
node ids to values; fallible construction returns `Except`.
-/

namespace Terrainbento

/-- Load errors for a time-series file (spec §7: missing, empty, fewer than
two samples, or non-monotonic times). -/
inductive DataFormatError where
  | missingFile
  | tooFewRows
  | nonMonotonicTimes
  deriving DecidableEq, Repr

/-- Construction-time errors of the baselevel handler (spec §7). -/
inductive ConfigurationError where
  | bothLoweringMethods
  | neitherLoweringMethod
  | badFile (e : DataFormatError)
  | rescaleWithoutSeries
  | rescaleWithoutEndTime
  deriving DecidableEq, Repr

/-- Modelled from the spec: `TimeSeriesSource` (spec §2, §3, §4.1) holds an
ordered `(time, value)` signal loaded from an external table.  The concrete
class is not among the sources under study (only its tests are), so the data
model follows the spec's words: an ordered sequence of (time, value) samples. -/
structure TimeSeriesSource where
  samples : List (ℚ × ℚ)
  deriving DecidableEq, Repr

/-- Strict monotonicity of the time column of a sample list. -/
def timesStrictlyIncreasing : List (ℚ × ℚ) → Bool
  | [] => true
  | [_] => true
  | (t0, _) :: (t1, v1) :: rest =>
      decide (t0 < t1) && timesStrictlyIncreasing ((t1, v1) :: rest)

/-- Modelled from the spec: `TimeSeriesSource.load` (spec §4.1) reads a
two-column table; it fails with `DataFormatError` if the file is missing,
empty, has fewer than two rows, or non-monotonic times.  `none` stands for a
path that resolves to no file. -/
def TimeSeriesSource.load : Option (List (ℚ × ℚ)) → Except DataFormatError TimeSeriesSource
  | none => .error .missingFile
  | some rows =>
      if rows.length < 2 then .error .tooFewRows
      else if timesStrictlyIncreasing rows then .ok ⟨rows⟩
      else .error .nonMonotonicTimes

/-- Clamped linear interpolation over a sample list: flat extrapolation
before the first and after the last sample, linear in between (spec §4.1). -/
def interp : List (ℚ × ℚ) → ℚ → ℚ
  | [], _ => 0
  | [(_, v0)], _ => v0
  | (t0, v0) :: (t1, v1) :: rest, t =>
      if t ≤ t0 then v0
      else if t ≤ t1 then v0 + (v1 - v0) * (t - t0) / (t1 - t0)
      else interp ((t1, v1) :: rest) t

/-- Modelled from the spec: `value_at` (spec §4.1), linear interpolation with
clamping to the nearest boundary sample outside the sampled range. -/
def TimeSeriesSource.value_at (s : TimeSeriesSource) (t : ℚ) : ℚ :=
  interp s.samples t

/-- Modelled from the spec: the resolved rate source of a validated handler
(spec §4.2 `RateResolver`): either a constant lowering rate, or a loaded
time series with an optional rescaling factor computed once at construction. -/
inductive RateMode where
  | constantRate (rate : ℚ)
  | timeSeries (s : TimeSeriesSource) (scale : Option ℚ)
  deriving DecidableEq, Repr

/-- Modelled from the spec: `RateResolver.resolve(t0, t1)` (spec §4.2) gives
the scalar displacement applied over `[t0, t1)`: `rate * (t1 - t0)` in
constant-rate mode; the decrease `value_at(t0) - value_at(t1)` of the series
in time-series mode; the same decrease multiplied by the construction-time
scale factor when rescaling is enabled. -/
def RateMode.resolve (m : RateMode) (t0 t1 : ℚ) : ℚ :=
  match m with
  | .constantRate rate => rate * (t1 - t0)
  | .timeSeries s none => s.value_at t0 - s.value_at t1
  | .timeSeries s (some k) => k * (s.value_at t0 - s.value_at t1)

/-- Modelled from the spec: a validated `SingleNodeBaselevelHandler`
(spec §3, §4.3): the controlled boundary node and the configured rate mode.
The grid fields it mutates are passed explicitly to `apply`. -/
structure SingleNodeBaselevelHandler where
  outlet_node : ℕ
  mode : RateMode
  deriving DecidableEq, Repr

/-- Modelled from the spec: the raw construction parameters of the handler
(spec §6).  A supplied file path is represented by its resolved contents
(`none` inside means the path resolves to no file). -/
structure HandlerParams where
  outlet_node : ℕ
  outlet_lowering_rate : Option ℚ
  outlet_lowering_file_path : Option (Option (List (ℚ × ℚ)))
  model_end_time : Option ℚ
  model_end_elevation : Option ℚ

/-- Modelled from the spec: the rescaling factor computed once at
construction (spec §4.2):
`(target_end_value - value_at(t_start)) / (value_at(t_end_of_model) - value_at(t_start))`
with the model start time `t_start = 0`. -/
def rescaleFactor (s : TimeSeriesSource) (endTime endElevation : ℚ) : ℚ :=
  (endElevation - s.value_at 0) / (s.value_at endTime - s.value_at 0)

/-- Modelled from the spec: handler construction / validation
(spec §4.3 `Unconfigured → Validated`, §6, §7): (1) exactly one of
{constant rate, file path} must be supplied, else `ConfigurationError`;
(2) a supplied path is loaded, `DataFormatError` surfacing as
`ConfigurationError`; (3) rescaling parameters without a time series fail,
and rescaling without a known model end time fails. -/
def SingleNodeBaselevelHandler.make (p : HandlerParams) :
    Except ConfigurationError SingleNodeBaselevelHandler :=
  match p.outlet_lowering_rate, p.outlet_lowering_file_path with
  | some _, some _ => .error .bothLoweringMethods
  | none, none => .error .neitherLoweringMethod
  | some rate, none =>
      match p.model_end_elevation with
      | some _ => .error .rescaleWithoutSeries
      | none => .ok ⟨p.outlet_node, .constantRate rate⟩
  | none, some file =>
      match TimeSeriesSource.load file with
      | .error e => .error (.badFile e)
      | .ok s =>
          match p.model_end_elevation with
          | none => .ok ⟨p.outlet_node, .timeSeries s none⟩
          | some endElevation =>
              match p.model_end_time with
              | none => .error .rescaleWithoutEndTime
              | some endTime =>
                  .ok ⟨p.outlet_node,
                       .timeSeries s (some (rescaleFactor s endTime endElevation))⟩

/-- The shared mutable grid fields the handler touches: the elevation field
`topographic__elevation` and the optional subsurface-interface field
`bedrock__elevation`, each indexed by node id. -/
structure GridFields where
  z : ℕ → ℚ
  bedrock : Option (ℕ → ℚ)

/-- Modelled from the spec: the per-step operation `apply(t0, t1)`
(spec §4.3): compute the displacement, subtract it from the elevation field
at the controlled boundary node, and, when an interface field exists and the
post-lowering elevation would fall below the current interface value, lower
the interface by the same displacement. -/
def SingleNodeBaselevelHandler.apply (h : SingleNodeBaselevelHandler)
    (g : GridFields) (t0 t1 : ℚ) : GridFields :=
  let d := h.mode.resolve t0 t1
  let o := h.outlet_node
  { z := Function.update g.z o (g.z o - d)
    bedrock :=
      match g.bedrock with
      | none => none
      | some b =>
          if g.z o - d < b o then some (Function.update b o (b o - d)) else some b }

/-- Apply the handler over a partition of an interval given by its list of
breakpoints `[t0, t1, ..., tN]`: one `apply` call per consecutive pair. -/
def SingleNodeBaselevelHandler.applyPartition (h : SingleNodeBaselevelHandler)
    (g : GridFields) : List ℚ → GridFields
  | t0 :: t1 :: rest => h.applyPartition (h.apply g t0 t1) (t1 :: rest)
  | _ => g

/-- Modelled from the spec: the fixture series of the tests
(`data/outlet_history.txt`), absent from the sources under study.  Its
interpolated values are pinned by the spec's concrete scenarios (spec §8):
`value_at 0 = 0`, `value_at 2400 = -47.5` (one step of 2400.0 lowers an
all-ones grid to `-46.5`), and a final recorded value of `-159` at time
4800 (so that rescaling to `model_end_elevation = -318` doubles the signal,
giving `-95.0` at time 2400). -/
def fixtureSeries : TimeSeriesSource :=
  ⟨[(0, 0), (2400, -95/2), (4800, -159)]⟩

/-! ## Run-loop orchestration of the derived models

`BasicDdRt.run_one_step` and `BasicSaVs.run_one_step` are sequences of
side-effecting calls; their execution order is embedded as an event trace. -/

/-- One observable action inside a `run_one_step` body of a derived model. -/
inductive StepEvent where
  | flowAccumulation
  | erodabilityFieldUpdate
  | erosionThresholdUpdate
  | waterErosion
  | diffusion
  | createAndMoveWater
  | effectiveDrainageArea
  | zeroFloodedDischarge
  | bedrockReset
  | soilProductionRate
  | boundaryHandlersUpdate
  | advanceModelTime
  deriving DecidableEq, Repr

/-- Modelled from the spec: `ErosionModel.finalize__run_one_step` lives in the
base class, which is not among the sources under study.  Per the spec §4.4 and
the `BasicSaVs.run_one_step` docstring ("This function updates all boundary
boundary handlers handlers by `step` and increments model time by `step`"),
it updates every registered boundary handler and advances the model clock. -/
def finalizeTrace : List StepEvent :=
  [.boundaryHandlersUpdate, .advanceModelTime]

/-- The call sequence of `BasicDdRt.run_one_step(dt)`: flow accumulation,
erodability-field update, erosion-threshold update, water erosion, linear
diffusion, then `finalize__run_one_step(dt)`. -/
def basicDdRt_run_one_step_trace : List StepEvent :=
  [.flowAccumulation, .erodabilityFieldUpdate, .erosionThresholdUpdate,
   .waterErosion, .diffusion] ++ finalizeTrace

/-- The call sequence of `BasicSaVs.run_one_step(step)`: water creation and
movement, effective-drainage-area update, zeroing of flooded discharge, water
erosion, bedrock reset, soil-production-rate calculation, depth-dependent
diffusion, then `finalize__run_one_step(step)`. -/
def basicSaVs_run_one_step_trace : List StepEvent :=
  [.createAndMoveWater, .effectiveDrainageArea, .zeroFloodedDischarge,
   .waterErosion, .bedrockReset, .soilProductionRate, .diffusion] ++ finalizeTrace

/-! ## Erodibility adjustment through the boundary-handler mapping

Boundary handlers are registered in a string-keyed mapping; the only part of
a `PrecipChanger` the two models read is its
`get_erodability_adjustment_factor()` value, embedded here as the rational
carried by the map entry. -/

/-- `BasicSaVs.run_one_step` erodibility update: if a handler named
`"PrecipChanger"` is registered, the eroder's `K` is set to the configured
`water_erodibility` times the handler's adjustment factor; otherwise the
eroder keeps the unadjusted `K` it was constructed with. -/
def BasicSaVs.effectiveErodibility (K : ℚ) (handlers : List (String × ℚ)) : ℚ :=
  match handlers.lookup "PrecipChanger" with
  | some factor => K * factor
  | none => K

/-- `BasicDdRt._update_erodability_field` at one node.  The sigmoid weight
`1 / (1 + exp(-(z - contact) / width))` is a real-valued kernel outside the
rational embedding, so the already-computed weight `erody_wt` is a parameter;
the function returns the effective erodibility written into
`substrate__erodability`: the factor-adjusted (when a `"PrecipChanger"` is
registered) rock and till erodibilities combined by weighted averaging. -/
def BasicDdRt.updateErodabilityField (K_rock_sp K_till_sp erody_wt : ℚ)
    (handlers : List (String × ℚ)) : ℚ :=
  let rockTill : ℚ × ℚ :=
    match handlers.lookup "PrecipChanger" with
    | some factor => (K_rock_sp * factor, K_till_sp * factor)
    | none => (K_rock_sp, K_till_sp)
  erody_wt * rockTill.2 + (1 - erody_wt) * rockTill.1

/-- `BasicDdRt._update_erosion_threshold_values` at one node:
`cum_ero = z - initial_topographic__elevation`,
`threshold = threshold_value - thresh_change_per_depth * cum_ero`, then
values below `threshold_value` are clamped back up to `threshold_value`. -/
def BasicDdRt.updateErosionThreshold
    (threshold_value thresh_change_per_depth z z_initial : ℚ) : ℚ :=
  let cum_ero := z - z_initial
  let threshold := threshold_value - thresh_change_per_depth * cum_ero
  if threshold < threshold_value then threshold_value else threshold

/-- `BasicSaVs.__init__` bedrock setup: `bedrock__elevation` is created and
set to `topographic__elevation - soil__depth` at every node. -/
def BasicSaVs.initialBedrock (z soil : ℕ → ℚ) : ℕ → ℚ :=
  fun n => z n - soil n

/-- `BasicSaVs.run_one_step` bedrock reset, immediately after the water
erosion substep: `b[:] = np.minimum(b, topographic__elevation)`. -/
def BasicSaVs.resetBedrock (b z : ℕ → ℚ) : ℕ → ℚ :=
  fun n => min (b n) (z n)

/-- Whether handler construction returned a configuration error. -/
def isConfigError : Except ConfigurationError SingleNodeBaselevelHandler → Bool
  | .error _ => true
  | .ok _ => false

/-! ## Helper lemmas -/

/-- One `apply` call changes the elevation field at the controlled node by
exactly the resolved displacement. -/
theorem apply_z_outlet (h : SingleNodeBaselevelHandler) (g : GridFields)
    (t0 t1 : ℚ) :
    (h.apply g t0 t1).z h.outlet_node
      = g.z h.outlet_node - h.mode.resolve t0 t1 := by
  simp [SingleNodeBaselevelHandler.apply]

/-- Telescoping of a time-series handler over an arbitrary partition: the
total elevation change at the controlled node is the scaled decrease of the
series between the first and last breakpoints, whatever the intermediate
breakpoints are. -/
theorem timeSeries_applyPartition_z (s : TimeSeriesSource) (kOpt : Option ℚ)
    (o : ℕ) (g : GridFields) (t0 : ℚ) (rest : List ℚ) :
    (SingleNodeBaselevelHandler.applyPartition ⟨o, .timeSeries s kOpt⟩ g
        (t0 :: rest)).z o
      = g.z o - kOpt.getD 1 * (s.value_at t0 - s.value_at (rest.getLastD t0)) := by
  induction rest generalizing g t0 with
  | nil =>
      simp [SingleNodeBaselevelHandler.applyPartition]
  | cons t1 rest ih =>
      rw [SingleNodeBaselevelHandler.applyPartition, ih, List.getLastD_cons]
      rcases kOpt with _ | k <;>
        simp [SingleNodeBaselevelHandler.apply, RateMode.resolve,
          Option.getD] <;> ring

/-! ## Claims -/

/-- C1: for every valid constant-rate configuration, one `apply(t0, t1)` call
lowers the elevation at the controlled boundary node by exactly
`rate * (t1 - t0)`, and lowers the subsurface-interface field at that node by
the same amount whenever the post-lowering elevation would fall below the
pre-step interface value; concretely, boundary elevation `1.0`, interface
`0.0`, rate `0.1` and a single step of `2400.0` give elevation `-239.0` and
interface `-240.0`. -/
theorem constant_rate_apply_lowers_by_rate_times_dt :
    (∀ (rate : ℚ) (o : ℕ) (z b : ℕ → ℚ) (t0 t1 : ℚ),
      (SingleNodeBaselevelHandler.apply ⟨o, .constantRate rate⟩ ⟨z, some b⟩
          t0 t1).z o
        = z o - rate * (t1 - t0)
      ∧ (z o - rate * (t1 - t0) < b o →
          ((SingleNodeBaselevelHandler.apply ⟨o, .constantRate rate⟩
              ⟨z, some b⟩ t0 t1).bedrock.map (fun f => f o))
            = some (b o - rate * (t1 - t0))))
    ∧ (SingleNodeBaselevelHandler.apply ⟨27, .constantRate (1/10)⟩
          ⟨fun _ => 1, some fun _ => 0⟩ 0 2400).z 27 = -239
    ∧ ((SingleNodeBaselevelHandler.apply ⟨27, .constantRate (1/10)⟩
          ⟨fun _ => 1, some fun _ => 0⟩ 0 2400).bedrock.map (fun f => f 27))
        = some (-240) := by
  refine ⟨fun rate o z b t0 t1 => ⟨?_, fun hlt => ?_⟩, ?_, ?_⟩
  · simp [SingleNodeBaselevelHandler.apply, RateMode.resolve]
  · simp [SingleNodeBaselevelHandler.apply, RateMode.resolve, if_pos hlt]
  · norm_num [SingleNodeBaselevelHandler.apply, RateMode.resolve]
  · norm_num [SingleNodeBaselevelHandler.apply, RateMode.resolve]

/-- Witness for C1: at rate `1`, interval `[0, 1]`, all-zero elevation and
interface fields, the post-lowering elevation `-1` falls below the interface
`0`, so the interface is lowered to `-1` as the theorem states. -/
theorem constant_rate_apply_lowers_witness :
    ((SingleNodeBaselevelHandler.apply ⟨0, .constantRate 1⟩
        ⟨fun _ => 0, some fun _ => 0⟩ 0 1).bedrock.map (fun f => f 0))
      = some ((0 : ℚ) - 1 * (1 - 0)) :=
  (constant_rate_apply_lowers_by_rate_times_dt.1 1 0 (fun _ => 0) (fun _ => 0)
    0 1).2 (by norm_num)

/-- C2: for every time-series configuration without rescaling, the cumulative
lowering of the boundary node over any partition of `[t_start, t_end]` into
consecutive non-overlapping steps telescopes to
`value_at(t_start) - value_at(t_end)`, independent of the partition;
concretely, the fixture series over one step of `2400.0` takes an all-ones
elevation / all-zeros interface grid to elevation `-46.5` and interface
`-47.5` at the boundary node. -/
theorem time_series_partition_telescopes :
    (∀ (s : TimeSeriesSource) (o : ℕ) (g : GridFields) (t0 : ℚ)
        (rest : List ℚ),
      (SingleNodeBaselevelHandler.applyPartition ⟨o, .timeSeries s none⟩ g
          (t0 :: rest)).z o
        = g.z o - (s.value_at t0 - s.value_at (rest.getLastD t0)))
    ∧ (SingleNodeBaselevelHandler.applyPartition
          ⟨27, .timeSeries fixtureSeries none⟩
          ⟨fun _ => 1, some fun _ => 0⟩ [0, 2400]).z 27 = -46.5
    ∧ ((SingleNodeBaselevelHandler.applyPartition
          ⟨27, .timeSeries fixtureSeries none⟩
          ⟨fun _ => 1, some fun _ => 0⟩ [0, 2400]).bedrock.map (fun f => f 27))
        = some (-47.5) := by
  refine ⟨fun s o g t0 rest => ?_, ?_, ?_⟩
  · simpa using timeSeries_applyPartition_z s none o g t0 rest
  · norm_num [SingleNodeBaselevelHandler.applyPartition,
      SingleNodeBaselevelHandler.apply, RateMode.resolve, fixtureSeries,
      TimeSeriesSource.value_at, interp]
  · norm_num [SingleNodeBaselevelHandler.applyPartition,
      SingleNodeBaselevelHandler.apply, RateMode.resolve, fixtureSeries,
      TimeSeriesSource.value_at, interp]

/-- C3 counterexample: with the fixture series, `model_end_time = 4800` and
`model_end_elevation = -318`, running the rescaled handler from `0` to the
model end time `4800` (boundary elevation initialized to `0`) leaves the
boundary elevation at `-318`, whereas the claimed formula
`initial_elevation - (E - series.value_at(0))` evaluates to `318`. -/
theorem rescaling_end_elevation_counterexample :
    (SingleNodeBaselevelHandler.applyPartition
        ⟨27, .timeSeries fixtureSeries
              (some (rescaleFactor fixtureSeries 4800 (-318)))⟩
        ⟨fun _ => 0, none⟩ [0, 4800]).z 27 = -318
    ∧ (0 : ℚ) - ((-318) - fixtureSeries.value_at 0) = 318
    ∧ (-318 : ℚ) ≠ 318 := by
  refine ⟨?_, ?_, by norm_num⟩
  · norm_num [SingleNodeBaselevelHandler.applyPartition,
      SingleNodeBaselevelHandler.apply, RateMode.resolve, rescaleFactor,
      fixtureSeries, TimeSeriesSource.value_at, interp]
  · norm_num [fixtureSeries, TimeSeriesSource.value_at, interp]

/-- C3 (amended): with `model_end_time = T` and `model_end_elevation = E`,
running the rescaled handler from `t_start = 0` to `t = T` under any step
partition leaves the boundary elevation exactly at
`initial_elevation + (E - series.value_at(0))` (not `initial_elevation -
(E - series.value_at(0))`), provided the series is not flat between `0` and
`T`; construction with the fixture series, `T = 4800` and `E = -318` yields
exactly this rescaled handler, and a single step of `2400.0` starting from
elevation `0.0` yields boundary elevation `-95.0`. -/
theorem rescaling_reaches_target_amended :
    (∀ (s : TimeSeriesSource) (E T : ℚ) (o : ℕ) (g : GridFields)
        (rest : List ℚ),
      s.value_at T ≠ s.value_at 0 →
      rest.getLastD 0 = T →
      (SingleNodeBaselevelHandler.applyPartition
          ⟨o, .timeSeries s (some (rescaleFactor s T E))⟩ g (0 :: rest)).z o
        = g.z o + (E - s.value_at 0))
    ∧ SingleNodeBaselevelHandler.make
        ⟨27, none, some (some fixtureSeries.samples), some 4800, some (-318)⟩
        = .ok ⟨27, .timeSeries fixtureSeries
                    (some (rescaleFactor fixtureSeries 4800 (-318)))⟩
    ∧ (SingleNodeBaselevelHandler.applyPartition
        ⟨27, .timeSeries fixtureSeries
              (some (rescaleFactor fixtureSeries 4800 (-318)))⟩
        ⟨fun _ => 0, none⟩ [0, 2400]).z 27 = -95 := by
  refine ⟨fun s E T o g rest hne hlast => ?_, ?_, ?_⟩
  · rw [timeSeries_applyPartition_z, hlast]
    have hd : s.value_at T - s.value_at 0 ≠ 0 := sub_ne_zero_of_ne hne
    simp only [Option.getD, rescaleFactor]
    field_simp
    ring
  · norm_num [SingleNodeBaselevelHandler.make, TimeSeriesSource.load,
      timesStrictlyIncreasing, fixtureSeries]
  · norm_num [SingleNodeBaselevelHandler.applyPartition,
      SingleNodeBaselevelHandler.apply, RateMode.resolve, rescaleFactor,
      fixtureSeries, TimeSeriesSource.value_at, interp]

/-- Witness for the amended C3: with the fixture series, `E = -318`,
`T = 4800`, the single-step partition `[0, 4800]` and an all-zero elevation
field, the hypotheses hold (`value_at 4800 = -159 ≠ 0 = value_at 0`) and the
boundary elevation ends at `0 + (-318 - 0)`. -/
theorem rescaling_reaches_target_witness :
    (SingleNodeBaselevelHandler.applyPartition
        ⟨27, .timeSeries fixtureSeries
              (some (rescaleFactor fixtureSeries 4800 (-318)))⟩
        ⟨fun _ => 0, none⟩ (0 :: [4800])).z 27
      = (fun _ => (0 : ℚ)) 27 + ((-318) - fixtureSeries.value_at 0) :=
  rescaling_reaches_target_amended.1 fixtureSeries (-318) 4800 27
    ⟨fun _ => 0, none⟩ [4800]
    (by norm_num [fixtureSeries, TimeSeriesSource.value_at, interp])
    (by simp)

/-- C4: handler construction with both a constant lowering rate and a
lowering-file path fails with a configuration error, and so does construction
with neither; no handler object is produced in either case. -/
theorem construction_requires_exactly_one_method :
    (∀ (o : ℕ) (rate : ℚ) (file : Option (List (ℚ × ℚ))) (T E : Option ℚ),
      SingleNodeBaselevelHandler.make ⟨o, some rate, some file, T, E⟩
        = .error .bothLoweringMethods)
    ∧ (∀ (o : ℕ) (T E : Option ℚ),
      SingleNodeBaselevelHandler.make ⟨o, none, none, T, E⟩
        = .error .neitherLoweringMethod) :=
  ⟨fun _ _ _ _ _ => rfl, fun _ _ _ => rfl⟩

/-- C5: when the supplied lowering-file path does not resolve to a loadable,
valid series, the load error surfaces to the constructor's caller as a
configuration error and construction fails; a missing file, an empty table,
a one-row table, and a table with non-monotonic times all load erroneously. -/
theorem construction_bad_file_fails :
    (∀ (o : ℕ) (T E : Option ℚ) (file : Option (List (ℚ × ℚ)))
        (e : DataFormatError),
      TimeSeriesSource.load file = .error e →
      SingleNodeBaselevelHandler.make ⟨o, none, some file, T, E⟩
        = .error (.badFile e))
    ∧ TimeSeriesSource.load none = .error .missingFile
    ∧ TimeSeriesSource.load (some []) = .error .tooFewRows
    ∧ TimeSeriesSource.load (some [(0, 5)]) = .error .tooFewRows
    ∧ TimeSeriesSource.load (some [(1, 5), (1, 6)])
        = .error .nonMonotonicTimes := by
  refine ⟨fun o T E file e h => ?_, rfl, rfl, rfl, ?_⟩
  · simp [SingleNodeBaselevelHandler.make, h]
  · norm_num [TimeSeriesSource.load, timesStrictlyIncreasing]

/-- Witness for C5: a missing file (`none`) loads as `missingFile` and makes
construction fail with the corresponding configuration error. -/
theorem construction_bad_file_fails_witness :
    SingleNodeBaselevelHandler.make ⟨0, none, some none, none, none⟩
      = .error (.badFile .missingFile) :=
  construction_bad_file_fails.1 0 none none none .missingFile rfl

/-- C6: requesting rescaling (supplying a target end elevation) while the
model stop time is unknown at construction always fails with a configuration
error, whatever the other parameters; in particular, when the series itself
loads fine, supplying `model_end_elevation` alone fails with the
missing-end-time error, so no rescaling handler is constructed. -/
theorem rescale_without_end_time_fails :
    (∀ (o : ℕ) (rate : Option ℚ) (file : Option (Option (List (ℚ × ℚ))))
        (E : ℚ),
      isConfigError
        (SingleNodeBaselevelHandler.make ⟨o, rate, file, none, some E⟩)
        = true)
    ∧ (∀ (o : ℕ) (file : Option (List (ℚ × ℚ))) (s : TimeSeriesSource)
        (E : ℚ),
      TimeSeriesSource.load file = .ok s →
      SingleNodeBaselevelHandler.make ⟨o, none, some file, none, some E⟩
        = .error .rescaleWithoutEndTime) := by
  constructor
  · intro o rate file E
    rcases rate with _ | r <;> rcases file with _ | f
    · rfl
    · rcases h : TimeSeriesSource.load f with e | s <;>
        simp [SingleNodeBaselevelHandler.make, h, isConfigError]
    · rfl
    · rfl
  · intro o file s E h
    simp [SingleNodeBaselevelHandler.make, h]

/-- Witness for C6: the fixture table loads successfully, and constructing
with it plus `model_end_elevation = -318` but no `model_end_time` fails with
the missing-end-time configuration error. -/
theorem rescale_without_end_time_fails_witness :
    SingleNodeBaselevelHandler.make
        ⟨27, none, some (some fixtureSeries.samples), none, some (-318)⟩
      = .error .rescaleWithoutEndTime :=
  rescale_without_end_time_fails.2 27 (some fixtureSeries.samples)
    fixtureSeries (-318)
    (by norm_num [TimeSeriesSource.load, timesStrictlyIncreasing,
        fixtureSeries])

/-- C7 counterexample: in both `BasicDdRt.run_one_step` and
`BasicSaVs.run_one_step`, the water-erosion process component executes
strictly before the boundary handlers are updated (the handlers run inside
the final `finalize__run_one_step`), so the boundary handlers do not execute
before every process component as the claim states. -/
theorem handlers_before_components_counterexample :
    basicDdRt_run_one_step_trace.indexOf .waterErosion
        < basicDdRt_run_one_step_trace.indexOf .boundaryHandlersUpdate
    ∧ basicSaVs_run_one_step_trace.indexOf .waterErosion
        < basicSaVs_run_one_step_trace.indexOf .boundaryHandlersUpdate := by
  decide

/-- C7 (amended): within one `run_one_step(dt)` invocation of `BasicDdRt` or
`BasicSaVs`, the process components execute in a fixed caller-specified order
with diffusion after water erosion, the boundary handlers are updated only
afterwards (inside `finalize__run_one_step`), and simulation time is advanced
last of all. -/
theorem run_one_step_ordering_amended :
    (basicDdRt_run_one_step_trace.indexOf .waterErosion
        < basicDdRt_run_one_step_trace.indexOf .diffusion
      ∧ basicDdRt_run_one_step_trace.indexOf .diffusion
        < basicDdRt_run_one_step_trace.indexOf .boundaryHandlersUpdate
      ∧ basicDdRt_run_one_step_trace.indexOf .boundaryHandlersUpdate
        < basicDdRt_run_one_step_trace.indexOf .advanceModelTime
      ∧ basicDdRt_run_one_step_trace.getLast? = some .advanceModelTime)
    ∧ (basicSaVs_run_one_step_trace.indexOf .waterErosion
        < basicSaVs_run_one_step_trace.indexOf .diffusion
      ∧ basicSaVs_run_one_step_trace.indexOf .diffusion
        < basicSaVs_run_one_step_trace.indexOf .boundaryHandlersUpdate
      ∧ basicSaVs_run_one_step_trace.indexOf .boundaryHandlersUpdate
        < basicSaVs_run_one_step_trace.indexOf .advanceModelTime
      ∧ basicSaVs_run_one_step_trace.getLast? = some .advanceModelTime) := by
  decide

/-- C8: when no handler named `"PrecipChanger"` is registered in the
boundary-handler mapping, the erodibility used by the eroder is the
unadjusted configured value (`K` for `BasicSaVs`; the plain weighted
rock/till average for `BasicDdRt`); when such a handler is registered, the
erodibility used is the configured value multiplied by the handler's
adjustment factor. -/
theorem precip_changer_lookup_adjusts_erodibility :
    ∀ (K : ℚ) (handlers : List (String × ℚ)),
      (handlers.lookup "PrecipChanger" = none →
        BasicSaVs.effectiveErodibility K handlers = K)
      ∧ (∀ factor : ℚ, handlers.lookup "PrecipChanger" = some factor →
          BasicSaVs.effectiveErodibility K handlers = K * factor)
      ∧ (∀ K_rock_sp K_till_sp erody_wt : ℚ,
          (handlers.lookup "PrecipChanger" = none →
            BasicDdRt.updateErodabilityField K_rock_sp K_till_sp erody_wt
                handlers
              = erody_wt * K_till_sp + (1 - erody_wt) * K_rock_sp)
          ∧ (∀ factor : ℚ,
              handlers.lookup "PrecipChanger" = some factor →
              BasicDdRt.updateErodabilityField K_rock_sp K_till_sp erody_wt
                  handlers
                = factor
                  * (erody_wt * K_till_sp + (1 - erody_wt) * K_rock_sp))) := by
  intro K handlers
  refine ⟨fun h => ?_, fun factor h => ?_, fun Kr Kt w => ⟨fun h => ?_,
    fun factor h => ?_⟩⟩
  · simp [BasicSaVs.effectiveErodibility, h]
  · simp [BasicSaVs.effectiveErodibility, h]
  · simp [BasicDdRt.updateErodabilityField, h]
  · simp only [BasicDdRt.updateErodabilityField, h]
    ring

/-- Witness for C8: with an empty handler mapping the erodibility is the
unadjusted `K = 3`, and with a `"PrecipChanger"` of factor `2` registered it
is `3 * 2`. -/
theorem precip_changer_lookup_witness :
    BasicSaVs.effectiveErodibility 3 [] = 3
    ∧ BasicSaVs.effectiveErodibility 3 [("PrecipChanger", 2)] = 3 * 2 :=
  ⟨(precip_changer_lookup_adjusts_erodibility 3 []).1 rfl,
   (precip_changer_lookup_adjusts_erodibility 3 [("PrecipChanger", 2)]).2.1 2
     rfl⟩

/-- C9: for every node, `BasicDdRt._update_erosion_threshold_values` writes
`max(threshold_value, threshold_value - thresh_change_per_depth * (z - z0))`
into `erosion__threshold`, so the stored threshold is never below the
initially configured `threshold_value`, whatever the sign of the cumulative
erosion depth. -/
theorem erosion_threshold_clamped_at_initial_value :
    ∀ threshold_value thresh_change_per_depth z z_initial : ℚ,
      BasicDdRt.updateErosionThreshold threshold_value thresh_change_per_depth
          z z_initial
        = max threshold_value
            (threshold_value - thresh_change_per_depth * (z - z_initial))
      ∧ threshold_value ≤
          BasicDdRt.updateErosionThreshold threshold_value
            thresh_change_per_depth z z_initial := by
  intro tv c z z0
  have hmax : BasicDdRt.updateErosionThreshold tv c z z0
      = max tv (tv - c * (z - z0)) := by
    by_cases h : tv - c * (z - z0) < tv
    · simp [BasicDdRt.updateErosionThreshold, h, max_eq_left (le_of_lt h)]
    · simp [BasicDdRt.updateErosionThreshold, h,
        max_eq_right (le_of_not_lt h)]
  exact ⟨hmax, hmax ▸ le_max_left _ _⟩

/-- C10: `BasicSaVs` keeps bedrock at or below the land surface at the points
where it writes it: construction sets `bedrock__elevation` to
`topographic__elevation - soil__depth` at every node (at or below the surface
whenever soil depth is nonnegative), and the reset immediately after the
water-erosion substep writes the pointwise minimum of the previous bedrock
and the topographic elevation, which is at or below the surface at every
node even when the eroder cut below the old bedrock. -/
theorem bedrock_at_or_below_surface :
    ∀ (z soil b : ℕ → ℚ) (n : ℕ),
      BasicSaVs.initialBedrock z soil n = z n - soil n
      ∧ (0 ≤ soil n → BasicSaVs.initialBedrock z soil n ≤ z n)
      ∧ BasicSaVs.resetBedrock b z n = min (b n) (z n)
      ∧ BasicSaVs.resetBedrock b z n ≤ z n := by
  intro z soil b n
  refine ⟨rfl, fun h => ?_, rfl, min_le_right _ _⟩
  simpa [BasicSaVs.initialBedrock] using sub_le_self (z n) h

/-- Witness for C10: with unit soil depth over a flat unit surface, the
initial bedrock `1 - 1 = 0` sits at or below the surface. -/
theorem bedrock_at_or_below_surface_witness :
    BasicSaVs.initialBedrock (fun _ => 1) (fun _ => 1) 0 ≤ (fun _ => (1 : ℚ)) 0 :=
  (bedrock_at_or_below_surface (fun _ => 1) (fun _ => 1) (fun _ => 1) 0).2.1
    (by norm_num)

end Terrainbento

-- scratch check that concrete rational evaluation goes through
example :
    Terrainbento.TimeSeriesSource.value_at ⟨[(0, 0), (2400, -95/2), (4800, -159)]⟩ 2400
      = -95/2 := by
  norm_num [Terrainbento.TimeSeriesSource.value_at, Terrainbento.interp]

example :
    Terrainbento.TimeSeriesSource.value_at ⟨[(0, 0), (2400, -95/2), (4800, -159)]⟩ 1200
      = -95/4 := by
  norm_num [Terrainbento.TimeSeriesSource.value_at, Terrainbento.interp]

example :
    Terrainbento.TimeSeriesSource.load (some [(0, 0), (2400, -95/2), (4800, -159)])
      = .ok ⟨[(0, 0), (2400, -95/2), (4800, -159)]⟩ := by
  norm_num [Terrainbento.TimeSeriesSource.load, Terrainbento.timesStrictlyIncreasing]
